import Mathlib

/-!
Verification of the KRuntime native bootstrapper (src/klr.core45/klr.core45.cpp).

This file gives a shallow embedding of the three components the claims are
about — `ScanDirectory` (the AssemblyListBuilder), `LoadCoreClr` (the
RuntimeLocator) and `CallApplicationMain` (the HostLifecycleController) —
and proves or refutes the specification's claims about them.

Conventions of the embedding:
- Wide C strings become Lean `String`s; character counts become `String.length`.
- `wcscpy_s` / `wcscat_s` are modelled with their secure-CRT semantics: they
  succeed when `wcslen(dest) + wcslen(src) + 1 <= cap` and on failure return a
  nonzero errno after setting `dest[0] = L'\0'` (the destination becomes the
  empty string).  A `none` result models "errno set, destination wiped".
- `FindFirstFile`/`FindNextFile` enumeration is modelled by the list of
  directory entries matching the search pattern, in filesystem enumeration
  order; the empty list models `INVALID_HANDLE_VALUE` (no entry matches, or
  the directory is missing/inaccessible).
- `HRESULT` values become `Int`, with `FAILED hr` meaning `hr < 0`.
- OS interaction (`LoadLibraryExW`, `GetProcAddress`, the `ICLRRuntimeHost2`
  calls, `calloc`) is modelled by oracle fields in a world structure; the
  embedding records the control flow the source performs on those outcomes,
  together with the trace of host-interface calls it makes.
-/

def MAX_PATH : Nat := 260

/-- `wcscpy_s(dest, cap, src)`: succeeds iff the source and its terminator fit
in `cap` characters; on failure errno is nonzero and the destination is wiped
(modelled by `none`). -/
def wcscpy_s (cap : Nat) (src : String) : Option String :=
  if src.length + 1 ≤ cap then some src else none

/-- `wcscat_s(dest, cap, src)`: succeeds iff the concatenation and its
terminator fit in `cap` characters; on failure errno is nonzero and the
destination is wiped to the empty string (modelled by `none`). -/
def wcscat_s (dest : String) (cap : Nat) (src : String) : Option String :=
  if dest.length + src.length + 1 ≤ cap then some (dest ++ src) else none

/-- One `WIN32_FIND_DATA` record: the entry's filename and whether
`dwFileAttributes` has `FILE_ATTRIBUTE_DIRECTORY` set. -/
structure FileEntry where
  cFileName : String
  isDirectory : Bool
deriving DecidableEq, Repr

/-- The twelve filenames `ScanDirectory` skips (klr.core45.cpp lines 56-67),
compared by exact `wcscmp`. -/
def tpaExclusionList : List String :=
  ["klr.host.dll",
   "klr.host.ni.dll",
   "Microsoft.Framework.ApplicationHost.dll",
   "Microsoft.Framework.ApplicationHost.ni.dll",
   "Microsoft.Framework.Runtime.dll",
   "Microsoft.Framework.Runtime.ni.dll",
   "Microsoft.Framework.Runtime.Roslyn.dll",
   "Microsoft.Framework.Runtime.Roslyn.ni.dll",
   "Microsoft.Framework.Project.dll",
   "Microsoft.Framework.Project.ni.dll",
   "Microsoft.Framework.DesignTimeHost.dll",
   "Microsoft.Framework.DesignTimeHost.ni.dll"]

/-- The do/while body of `ScanDirectory` (lines 48-85): skip directories and
excluded filenames, otherwise append `directory`, the filename and `";"` to
the trusted-platform-assemblies buffer with `wcscat_s`; any failing append
sets `ret = false` and jumps to `Finished` (with the buffer wiped by
`wcscat_s`). -/
def scanAppendLoop (szDirectory : String) (cch : Nat) :
    List FileEntry → String → Bool × String
  | [], tpa => (true, tpa)
  | ffd :: rest, tpa =>
    if ffd.isDirectory = true then
      scanAppendLoop szDirectory cch rest tpa
    else if tpaExclusionList.contains ffd.cFileName = true then
      scanAppendLoop szDirectory cch rest tpa
    else
      match wcscat_s tpa cch szDirectory with
      | none => (false, "")
      | some t1 =>
        match wcscat_s t1 cch ffd.cFileName with
        | none => (false, "")
        | some t2 =>
          match wcscat_s t2 cch ";" with
          | none => (false, "")
          | some t3 => scanAppendLoop szDirectory cch rest t3

/-- `ScanDirectory` (lines 25-89).  Builds the search pattern
`szDirectory + szPattern` in a `MAX_PATH` stack buffer (failure of either
string call returns `false` with the output untouched), then enumerates the
matching entries; `entries` is that enumeration in filesystem order, `[]`
modelling `FindFirstFile == INVALID_HANDLE_VALUE`. -/
def ScanDirectory (szDirectory szPattern : String) (entries : List FileEntry)
    (tpa : String) (cch : Nat) : Bool × String :=
  match wcscpy_s MAX_PATH szDirectory with
  | none => (false, tpa)
  | some wszPattern =>
    match wcscat_s wszPattern MAX_PATH szPattern with
    | none => (false, tpa)
    | some _ =>
      match entries with
      | [] => (false, tpa)
      | e :: es => scanAppendLoop szDirectory cch (e :: es) tpa

/-- The entries of the enumeration that `ScanDirectory` actually appends:
non-directories whose filename is not in the exclusion list, in enumeration
order. -/
def usableEntries (entries : List FileEntry) : List FileEntry :=
  entries.filter fun e => !e.isDirectory && !(tpaExclusionList.contains e.cFileName)

/-- The filenames `ScanDirectory` appends, in enumeration order. -/
def scannedNames (entries : List FileEntry) : List String :=
  (usableEntries entries).map fun e => e.cFileName

/-- Plain concatenation of a list of strings. -/
def concatList : List String → String
  | [] => ""
  | s :: rest => s ++ concatList rest

/-- The exact text a successful `ScanDirectory` appends: one
`directory + filename + ";"` per usable entry, in enumeration order. -/
def tpaFragment (szDirectory : String) (entries : List FileEntry) : String :=
  concatList ((usableEntries entries).map fun e => szDirectory ++ e.cFileName ++ ";")

/-! ## RuntimeLocator: `LoadCoreClr` (lines 91-240) -/

/-- The oracle for `LoadCoreClr`: the environment, the compile-time
configuration, and the outcomes of the OS loader calls. -/
structure LoaderWorld where
  /-- Value of `CORECLR_DIR`; `none` models `GetEnvironmentVariableW`
  returning 0 (unset or empty).  Values are assumed to fit the `MAX_PATH`
  receiving buffer. -/
  coreclrDirEnv : Option String
  /-- Whether the build has `KRE_TARGET_OS == Win7PlusCoreSystem`, i.e. the
  branch that resolves `AddDllDirectory`/`SetDefaultDllDirectories`
  dynamically from a candidate list of OS loader modules. -/
  win7PlusCoreSystem : Bool
  /-- Whether the build has `AMD64` defined (selects the development path). -/
  amd64 : Bool
  /-- Whether `LoadLibraryExW` succeeds on a given OS loader module name. -/
  osModuleLoads : String → Bool
  /-- Whether `GetProcAddress(module, "AddDllDirectory")` succeeds. -/
  osModuleHasAddDllDirectory : String → Bool
  /-- Whether `GetProcAddress(module, "SetDefaultDllDirectories")` succeeds. -/
  osModuleHasSetDefaultDllDirectories : String → Bool
  /-- Whether `LoadLibraryExW` succeeds on a given CLR library path. -/
  loadLibrary : String → Bool

/-- `rgwzOSLoaderModuleNames` (lines 121-125); the terminating `NULL` models
the end of the list. -/
def osLoaderModuleNames : List String :=
  ["api-ms-win-core-libraryloader-l1-1-1.dll", "kernel32.dll"]

/-- How the candidate-module scan loop (lines 140-197) can end. -/
inductive ScanLoopResult where
  /-- `break` with a loaded module holding both exports (`fSuccess` path). -/
  | found
  /-- `rgwszModuleFileName == NULL`: the list is exhausted and the loop
  condition fails. -/
  | exhausted
deriving DecidableEq, Repr

/-- One iteration of the candidate-module scan loop, as the source executes
it.  Every `continue` in the body (load failure, line 149; missing
`AddDllDirectory`, line 169; missing `SetDefaultDllDirectories`, line 186)
runs before `dwModuleFileName` is incremented, so it re-enters the loop with
the index unchanged (`Sum.inl idx`).  When the module loads and both
`GetProcAddress` calls succeed, the guard at line 190 holds and the loop
breaks; the increment at lines 195-196 is unreachable. -/
def osLoaderLoopStep (w : LoaderWorld) (idx : Nat) : Sum Nat ScanLoopResult :=
  match osLoaderModuleNames.get? idx with
  | none => Sum.inr ScanLoopResult.exhausted
  | some nm =>
    if ¬ w.osModuleLoads nm = true then Sum.inl idx
    else if ¬ w.osModuleHasAddDllDirectory nm = true then Sum.inl idx
    else if ¬ w.osModuleHasSetDefaultDllDirectories nm = true then Sum.inl idx
    else Sum.inr ScanLoopResult.found

/-- Step-indexed run of the candidate-module scan loop; `none` means the loop
has not terminated within `fuel` iterations. -/
def osLoaderLoopRun (w : LoaderWorld) : Nat → Nat → Option ScanLoopResult
  | _, 0 => none
  | idx, fuel + 1 =>
    match osLoaderLoopStep w idx with
    | Sum.inl idx2 => osLoaderLoopRun w idx2 fuel
    | Sum.inr r => some r

/-- The check at line 107: `wszClrPath[wcslen(wszClrPath) - 1] == L'\\'`.
(`GetEnvironmentVariableW` returns 0 for an unset or empty variable, so the
string is nonempty whenever the source evaluates this.) -/
def lastCharIsBackslash (s : String) : Bool :=
  match s.data.getLast? with
  | some c => c == '\\'
  | none => false

/-- Lines 101-114: copy `CORECLR_DIR` into `wszClrPath`, append a trailing
`"\"` unless one is present, then append `"coreclr.dll"`; each failing
string call jumps to `Finished` (modelled by `none`). -/
def buildEnvClrPath (szCoreClrDirectory : String) : Option String :=
  match wcscpy_s MAX_PATH szCoreClrDirectory with
  | none => none
  | some p0 =>
    match (if lastCharIsBackslash p0 then some p0 else wcscat_s p0 MAX_PATH "\\") with
    | none => none
    | some p1 => wcscat_s p1 MAX_PATH "coreclr.dll"

/-- The fixed development-tree path (lines 224-228), per CPU architecture. -/
def devClrPath (amd64 : Bool) : String :=
  if amd64 then "..\\..\\..\\artifacts\\build\\ProjectK\\Runtime\\amd64\\coreclr.dll"
  else "..\\..\\..\\artifacts\\build\\ProjectK\\Runtime\\x86\\coreclr.dll"

/-- Lines 221-236: if no handle yet, try the development path, then the bare
filename.  Returns the list of `LoadLibraryExW` attempts on CLR paths made by
the whole function (in order) and the handle returned. -/
def loadFallbacks (w : LoaderWorld) (attempts : List String) (h : Option String) :
    List String × Option String :=
  match h with
  | some p => (attempts, some p)
  | none =>
    let dev := devClrPath w.amd64
    if w.loadLibrary dev = true then (attempts ++ [dev], some dev)
    else if w.loadLibrary "coreclr.dll" = true then
      (attempts ++ [dev, "coreclr.dll"], some "coreclr.dll")
    else (attempts ++ [dev, "coreclr.dll"], none)

/-- `LoadCoreClr` (lines 91-240), step-indexed by `fuel` for the
candidate-module scan loop.  `none`: the function has not returned within
`fuel` loop iterations.  `some (attempts, h)`: it returned, having attempted
`LoadLibraryExW` on the CLR paths in `attempts` (in order) and produced the
module handle `h` (`none` = `nullptr`). -/
def LoadCoreClr (w : LoaderWorld) (fuel : Nat) : Option (List String × Option String) :=
  match w.coreclrDirEnv with
  | none => some (loadFallbacks w [] none)
  | some d =>
    match buildEnvClrPath d with
    | none => some ([], none)
    | some clrPath =>
      if w.win7PlusCoreSystem = true then
        match osLoaderLoopRun w 0 fuel with
        | none => none
        | some ScanLoopResult.exhausted =>
          -- line 199-203: no module with both exports; `goto Finished`
          -- returns the still-null handle without attempting any load
          some ([], none)
        | some ScanLoopResult.found =>
          -- AddDllDirectory / SetDefaultDllDirectories, then line 218
          some (loadFallbacks w [clrPath]
            (if w.loadLibrary clrPath = true then some clrPath else none))
      else
        -- the #else branch calls the two functions directly, then line 218
        some (loadFallbacks w [clrPath]
          (if w.loadLibrary clrPath = true then some clrPath else none))

/-- Whether the first candidate OS loader module loads and exports both
`AddDllDirectory` and `SetDefaultDllDirectories`. -/
def firstOsLoaderModuleGood (w : LoaderWorld) : Bool :=
  w.osModuleLoads "api-ms-win-core-libraryloader-l1-1-1.dll"
  && w.osModuleHasAddDllDirectory "api-ms-win-core-libraryloader-l1-1-1.dll"
  && w.osModuleHasSetDefaultDllDirectories "api-ms-win-core-libraryloader-l1-1-1.dll"

/-- Whether the environment path of `LoadCoreClr` is buildable within
`MAX_PATH` (no `goto Finished` from the string calls at lines 104-114). -/
def envBuildOk (w : LoaderWorld) : Bool :=
  match w.coreclrDirEnv with
  | none => true
  | some d => (buildEnvClrPath d).isSome

/-- The environment-variable load candidate, as the specification words it:
the value of the configuration variable, normalized to end with a separator,
with the canonical library filename appended. -/
def envCandidate (w : LoaderWorld) : Option String :=
  match w.coreclrDirEnv with
  | none => none
  | some d => buildEnvClrPath d

/-- First-successful-load over an ordered candidate list, as the
specification words it: each candidate is attempted only if all earlier ones
failed, and the first success wins.  Returns the attempts made and the
result. -/
def firstSuccessfulLoad (loads : String → Bool) : List String → List String × Option String
  | [] => ([], none)
  | p :: rest =>
    if loads p = true then ([p], some p)
    else
      let r := firstSuccessfulLoad loads rest
      (p :: r.1, r.2)

/-- The locate fallback chain exactly as specification section 4.3 words it:
try the environment-variable path, then the fixed development-tree path, then
the bare library filename, each only if the previous produced no handle, the
first successful load winning. -/
def locateChainSpec (w : LoaderWorld) : List String × Option String :=
  firstSuccessfulLoad w.loadLibrary
    ((match envCandidate w with | some p => [p] | none => [])
      ++ [devClrPath w.amd64, "coreclr.dll"])

/-! ## HostLifecycleController: `CallApplicationMain` (lines 242-462) -/

/-- `TRUSTED_PLATFORM_ASSEMBLIES_STRING_BUFFER_SIZE_CCH` (line 9), the `cch`
capacity handed to every `wcscat_s` on the trusted-assembly buffer. -/
def cchTrustedPlatformAssemblies : Nat := 63 * 1024

/-- The observable calls `CallApplicationMain` makes, in program order.
`getRuntimeHost` is the factory call obtained from the `GetCLRRuntimeHost`
export; `scan` is a `ScanDirectory` call with the given pattern;
`buildProperties` marks the start of startup-property assembly (lines
362-393); the rest are the `ICLRRuntimeHost2` calls, the `KRE_FRAMEWORK`
environment write and the entry-delegate invocation. -/
inductive HostEvent where
  | getRuntimeHost
  | setStartupFlags
  | authenticate
  | start
  | scan (pattern : String)
  | buildProperties
  | createAppDomain
  | createDelegate
  | setFrameworkEnvVar
  | invokeMain
  | unloadAppDomain
  | stop
deriving DecidableEq, Repr

/-- The oracle for `CallApplicationMain`: outcomes of the OS and host calls
it performs. -/
structure HostWorld where
  /-- `GetModuleDirectory(NULL, ...)`: directory of the current executable. -/
  moduleDirOfNull : String
  /-- Whether `LoadCoreClr()` returned a non-null module handle. -/
  loadCoreClrOk : Bool
  /-- `GetModuleDirectory(hCoreCLRModule, ...)`: the runtime's directory. -/
  coreClrDirectory : String
  /-- Whether `GetModuleHandleExW(GET_MODULE_HANDLE_EX_FLAG_PIN, ...)` succeeds. -/
  pinOk : Bool
  /-- Whether `GetProcAddress(hCoreCLRModule, "GetCLRRuntimeHost")` succeeds. -/
  getClrRuntimeHostExportOk : Bool
  /-- `HRESULT` of the `GetCLRRuntimeHost` factory call. -/
  getHostHr : Int
  /-- `HRESULT` of `Authenticate(CORECLR_HOST_AUTHENTICATION_KEY)`. -/
  authenticateHr : Int
  /-- `HRESULT` of `Start()`. -/
  startHr : Int
  /-- Whether `calloc` for the trusted-assembly buffer returns non-null. -/
  tpaAllocOk : Bool
  /-- Enumeration of the runtime directory for the `*.ni.dll` pattern. -/
  niEntries : List FileEntry
  /-- Enumeration of the runtime directory for the `*.dll` pattern. -/
  dllEntries : List FileEntry
  /-- `HRESULT` of `CreateAppDomainWithManager`. -/
  createAppDomainHr : Int
  /-- `HRESULT` of `CreateDelegate`. -/
  createDelegateHr : Int
  /-- Return value of the managed entry delegate `pHostMain(argc, argv)`. -/
  hostMainResult : Int

/-- The relevant fields of `CALL_APPLICATION_MAIN_DATA`. -/
structure CallData where
  klrDirectory : Option String
  applicationBase : String

/-- What a run of `CallApplicationMain` did: its boolean return value, the
trace of observable calls in order, whether `data->exitcode` was written,
whether the trusted-assembly buffer was allocated and whether it was freed
before returning, and the final content of that buffer. -/
structure CallResult where
  ret : Bool
  events : List HostEvent
  exitcode : Option Int
  tpaAllocated : Bool
  tpaFreed : Bool
  tpa : String
deriving DecidableEq, Repr

/-- `FAILED(hr)` for an `HRESULT`. -/
def FAILED (hr : Int) : Bool := hr < 0

/-- The host-interface events emitted before the buffer allocation:
the factory call, `SetStartupFlags`, `Authenticate` and `Start`. -/
def hostPrefixEvents : List HostEvent :=
  [HostEvent.getRuntimeHost, HostEvent.setStartupFlags,
   HostEvent.authenticate, HostEvent.start]

/-- Lines 362-462 of `CallApplicationMain`, from the point where the scans
succeeded: append the managed app-domain-manager assembly to the trusted
list, build `wszAppPaths`, create the app domain, resolve and invoke the
entry delegate, unload and stop.  Failing `wcscat_s` calls jump to
`Finished` (buffer freed, return value decided by `hr`, still the `Start()`
success there); `CreateAppDomainWithManager` and `CreateDelegate` failures
`return false` directly, skipping `Finished` and leaking the buffer. -/
def afterScan (w : HostWorld) (szCurrentDirectory : String)
    (events : List HostEvent) (tpa : String) : CallResult :=
  let ev := events ++ [HostEvent.buildProperties]
  match wcscat_s tpa cchTrustedPlatformAssemblies szCurrentDirectory with
  | none => ⟨!(FAILED w.startHr), ev, none, true, true, ""⟩
  | some t1 =>
  match wcscat_s t1 cchTrustedPlatformAssemblies "klr.core45.managed.dll" with
  | none => ⟨!(FAILED w.startHr), ev, none, true, true, ""⟩
  | some t2 =>
  match wcscat_s "" MAX_PATH szCurrentDirectory with
  | none => ⟨!(FAILED w.startHr), ev, none, true, true, t2⟩
  | some a1 =>
  match wcscat_s a1 MAX_PATH ";" with
  | none => ⟨!(FAILED w.startHr), ev, none, true, true, t2⟩
  | some a2 =>
  match wcscat_s a2 MAX_PATH w.coreClrDirectory with
  | none => ⟨!(FAILED w.startHr), ev, none, true, true, t2⟩
  | some a3 =>
  match wcscat_s a3 MAX_PATH ";" with
  | none => ⟨!(FAILED w.startHr), ev, none, true, true, t2⟩
  | some _ =>
  if FAILED w.createAppDomainHr = true then
    -- lines 416-422: print diagnostics and `return false` (no free)
    ⟨false, ev ++ [HostEvent.createAppDomain], none, true, false, t2⟩
  else if FAILED w.createDelegateHr = true then
    -- lines 433-437: `return false` (no free)
    ⟨false, ev ++ [HostEvent.createAppDomain, HostEvent.createDelegate], none, true, false, t2⟩
  else
    -- lines 439-462: set KRE_FRAMEWORK, invoke main, unload, stop, Finished
    ⟨!(FAILED w.createDelegateHr),
     ev ++ [HostEvent.createAppDomain, HostEvent.createDelegate,
            HostEvent.setFrameworkEnvVar, HostEvent.invokeMain,
            HostEvent.unloadAppDomain, HostEvent.stop],
     some w.hostMainResult, true, true, t2⟩

/-- Lines 352-360: scan with `*.ni.dll` first; only if that `ScanDirectory`
call returns `false` retry with `*.dll` (passing the buffer the first scan
left behind); if that also returns `false`, print a diagnostic and
`return false` directly — without passing `Finished`, so the allocated
buffer is not freed on that path. -/
def afterAlloc (w : HostWorld) (szCurrentDirectory : String) : CallResult :=
  let ni := ScanDirectory w.coreClrDirectory "*.ni.dll" w.niEntries ""
    cchTrustedPlatformAssemblies
  if ni.1 = true then
    afterScan w szCurrentDirectory
      (hostPrefixEvents ++ [HostEvent.scan "*.ni.dll"]) ni.2
  else
    let dll := ScanDirectory w.coreClrDirectory "*.dll" w.dllEntries ni.2
      cchTrustedPlatformAssemblies
    if dll.1 = true then
      afterScan w szCurrentDirectory
        (hostPrefixEvents ++ [HostEvent.scan "*.ni.dll", HostEvent.scan "*.dll"]) dll.2
    else
      ⟨false, hostPrefixEvents ++ [HostEvent.scan "*.ni.dll", HostEvent.scan "*.dll"],
       none, true, false, dll.2⟩

/-- `CallApplicationMain` (lines 242-462).  The early failure paths
(`LoadCoreClr` null, pin failure, missing export, failed factory call,
failed `Authenticate`, failed `Start`) `return false` directly.  A `calloc`
failure jumps to `Finished` with `hr` still holding the `Start()` result, so
it returns `true` there.  A failing `wcscpy_s` on `data->klrDirectory` jumps
to `Finished` with `hr == S_OK` and returns `true` having done nothing. -/
def CallApplicationMain (w : HostWorld) (d : CallData) : CallResult :=
  match (match d.klrDirectory with
         | some k => wcscpy_s MAX_PATH k
         | none => some w.moduleDirOfNull) with
  | none => ⟨true, [], none, false, false, ""⟩
  | some szCurrentDirectory =>
    if w.loadCoreClrOk = false then ⟨false, [], none, false, false, ""⟩
    else if w.pinOk = false then ⟨false, [], none, false, false, ""⟩
    else if w.getClrRuntimeHostExportOk = false then ⟨false, [], none, false, false, ""⟩
    else if FAILED w.getHostHr = true then
      ⟨false, [HostEvent.getRuntimeHost], none, false, false, ""⟩
    else if FAILED w.authenticateHr = true then
      ⟨false, [HostEvent.getRuntimeHost, HostEvent.setStartupFlags,
               HostEvent.authenticate], none, false, false, ""⟩
    else if FAILED w.startHr = true then
      ⟨false, hostPrefixEvents, none, false, false, ""⟩
    else if w.tpaAllocOk = false then
      -- lines 344-349: `goto Finished` with `hr` = the `Start()` success
      ⟨!(FAILED w.startHr), hostPrefixEvents, none, false, false, ""⟩
    else
      afterAlloc w szCurrentDirectory

/-- Whether `data->klrDirectory` (when present) fits the `MAX_PATH` buffer,
i.e. the initial `wcscpy_s` succeeds. -/
def klrDirFits (d : CallData) : Bool :=
  match d.klrDirectory with
  | some k => decide (k.length + 1 ≤ MAX_PATH)
  | none => true

/-! ## Concrete instances used by witnesses and counterexamples -/

/-- A `Win7PlusCoreSystem` configuration whose OS loader modules lack the two
search-path-extension exports and whose CLR paths are all unloadable. -/
def apiMissingWorld : LoaderWorld :=
  { coreclrDirEnv := some "C:\\clr"
    win7PlusCoreSystem := true
    amd64 := true
    osModuleLoads := fun _ => true
    osModuleHasAddDllDirectory := fun _ => false
    osModuleHasSetDefaultDllDirectories := fun _ => false
    loadLibrary := fun _ => false }

/-- A `Win7PlusCoreSystem` configuration whose OS loader modules lack the two
search-path-extension exports although every CLR path would load. -/
def apiMissingLoadableWorld : LoaderWorld :=
  { coreclrDirEnv := some "C:\\clr"
    win7PlusCoreSystem := true
    amd64 := true
    osModuleLoads := fun _ => true
    osModuleHasAddDllDirectory := fun _ => false
    osModuleHasSetDefaultDllDirectories := fun _ => false
    loadLibrary := fun _ => true }

/-- A `Win7PlusCoreSystem` configuration where `CORECLR_DIR` points to a
nonexistent file (its load fails), the development path would load, and the
OS loader modules lack the search-path-extension exports. -/
def envMissingFileWorld : LoaderWorld :=
  { coreclrDirEnv := some "C:\\nowhere"
    win7PlusCoreSystem := true
    amd64 := false
    osModuleLoads := fun _ => true
    osModuleHasAddDllDirectory := fun _ => false
    osModuleHasSetDefaultDllDirectories := fun _ => false
    loadLibrary := fun s => !(s == "C:\\nowhere\\coreclr.dll") }

/-- A non-`Win7PlusCoreSystem` configuration where only the bare filename
resolves through the system search path. -/
def chainWitnessWorld : LoaderWorld :=
  { coreclrDirEnv := some "C:\\clr\\"
    win7PlusCoreSystem := false
    amd64 := false
    osModuleLoads := fun _ => false
    osModuleHasAddDllDirectory := fun _ => false
    osModuleHasSetDefaultDllDirectories := fun _ => false
    loadLibrary := fun s => s == "coreclr.dll" }

/-- A host world where every step succeeds; the entry delegate returns 42. -/
def successWorld : HostWorld :=
  { moduleDirOfNull := "C:\\a\\"
    loadCoreClrOk := true
    coreClrDirectory := "C:\\c\\"
    pinOk := true
    getClrRuntimeHostExportOk := true
    getHostHr := 0
    authenticateHr := 0
    startHr := 0
    tpaAllocOk := true
    niEntries := [⟨"x.ni.dll", false⟩]
    dllEntries := [⟨"x.dll", false⟩]
    createAppDomainHr := 0
    createDelegateHr := 0
    hostMainResult := 42 }

/-- A host world where `Authenticate` fails and everything else would
succeed. -/
def authFailWorld : HostWorld :=
  { successWorld with authenticateHr := -2147450730 }

/-- A host world where `CreateAppDomainWithManager` fails and everything
else succeeds. -/
def appDomainFailWorld : HostWorld :=
  { successWorld with createAppDomainHr := -2146234280 }

/-- A host world where `calloc` for the trusted-assembly buffer fails and
everything else would succeed. -/
def allocFailWorld : HostWorld :=
  { successWorld with tpaAllocOk := false }

/-- A host world whose runtime directory matches the optimized pattern only
with one excluded filename; the generic pattern would match an ordinary
assembly. -/
def exclOnlyNiWorld : HostWorld :=
  { successWorld with
      niEntries := [⟨"klr.host.ni.dll", false⟩]
      dllEntries := [⟨"b.dll", false⟩] }

/-- A host world whose runtime directory has no optimized-pattern matches at
all, so the generic-pattern fallback is taken. -/
def fallbackScanWorld : HostWorld :=
  { successWorld with
      niEntries := []
      dllEntries := [⟨"b.dll", false⟩] }

/-! ## Helper lemmas about `wcscat_s` and the scan loop -/

lemma wcscat_s_some {dest : String} {cap : Nat} {src t : String}
    (h : wcscat_s dest cap src = some t) : t = dest ++ src := by
  unfold wcscat_s at h
  split at h
  · exact (Option.some.inj h).symm
  · exact absurd h (by simp)

lemma usableEntries_cons_dir {e : FileEntry} (es : List FileEntry)
    (h : e.isDirectory = true) : usableEntries (e :: es) = usableEntries es := by
  unfold usableEntries
  exact List.filter_cons_of_neg (by rw [h]; simp)

lemma usableEntries_cons_excl {e : FileEntry} (es : List FileEntry)
    (h : tpaExclusionList.contains e.cFileName = true) :
    usableEntries (e :: es) = usableEntries es := by
  unfold usableEntries
  exact List.filter_cons_of_neg (by rw [h]; simp)

lemma usableEntries_cons_keep {e : FileEntry} (es : List FileEntry)
    (h1 : e.isDirectory = false) (h2 : tpaExclusionList.contains e.cFileName = false) :
    usableEntries (e :: es) = e :: usableEntries es := by
  unfold usableEntries
  exact List.filter_cons_of_pos (by rw [h1, h2]; rfl)

lemma tpaFragment_cons_dir {e : FileEntry} (dir : String) (es : List FileEntry)
    (h : e.isDirectory = true) : tpaFragment dir (e :: es) = tpaFragment dir es := by
  unfold tpaFragment
  rw [usableEntries_cons_dir es h]

lemma tpaFragment_cons_excl {e : FileEntry} (dir : String) (es : List FileEntry)
    (h : tpaExclusionList.contains e.cFileName = true) :
    tpaFragment dir (e :: es) = tpaFragment dir es := by
  unfold tpaFragment
  rw [usableEntries_cons_excl es h]

lemma tpaFragment_cons_keep {e : FileEntry} (dir : String) (es : List FileEntry)
    (h1 : e.isDirectory = false) (h2 : tpaExclusionList.contains e.cFileName = false) :
    tpaFragment dir (e :: es) = (dir ++ e.cFileName ++ ";") ++ tpaFragment dir es := by
  unfold tpaFragment
  rw [usableEntries_cons_keep es h1 h2, List.map_cons]
  rfl

lemma scanAppendLoop_success (dir : String) (cch : Nat) :
    ∀ (entries : List FileEntry) (tpa : String),
      (scanAppendLoop dir cch entries tpa).1 = true →
      (scanAppendLoop dir cch entries tpa).2 = tpa ++ tpaFragment dir entries := by
  intro entries
  induction entries with
  | nil =>
    intro tpa _
    simp [scanAppendLoop, tpaFragment, usableEntries, concatList]
  | cons e es ih =>
    intro tpa h
    rw [scanAppendLoop] at h ⊢
    by_cases hd : e.isDirectory = true
    · rw [if_pos hd] at h ⊢
      rw [ih tpa h, tpaFragment_cons_dir dir es hd]
    · rw [if_neg hd] at h ⊢
      by_cases hx : tpaExclusionList.contains e.cFileName = true
      · rw [if_pos hx] at h ⊢
        rw [ih tpa h, tpaFragment_cons_excl dir es hx]
      · rw [if_neg hx] at h ⊢
        have hne : e.isDirectory = false := by simpa using hd
        have hnx : tpaExclusionList.contains e.cFileName = false := by simpa using hx
        cases hw1 : wcscat_s tpa cch dir with
        | none => rw [hw1] at h; simp at h
        | some t1 =>
          rw [hw1] at h
          dsimp only at h ⊢
          cases hw2 : wcscat_s t1 cch e.cFileName with
          | none => rw [hw2] at h; simp at h
          | some t2 =>
            rw [hw2] at h
            dsimp only at h ⊢
            cases hw3 : wcscat_s t2 cch ";" with
            | none => rw [hw3] at h; simp at h
            | some t3 =>
              rw [hw3] at h
              dsimp only at h ⊢
              rw [ih t3 h, wcscat_s_some hw3, wcscat_s_some hw2, wcscat_s_some hw1,
                tpaFragment_cons_keep dir es hne hnx]
              simp [String.append_assoc]

lemma scanAppendLoop_failed (dir : String) (cch : Nat) :
    ∀ (entries : List FileEntry) (tpa : String),
      (scanAppendLoop dir cch entries tpa).1 = false →
      (scanAppendLoop dir cch entries tpa).2 = "" := by
  intro entries
  induction entries with
  | nil => intro tpa h; exact absurd h (by simp [scanAppendLoop])
  | cons e es ih =>
    intro tpa h
    rw [scanAppendLoop] at h ⊢
    by_cases hd : e.isDirectory = true
    · rw [if_pos hd] at h ⊢
      exact ih tpa h
    · rw [if_neg hd] at h ⊢
      by_cases hx : tpaExclusionList.contains e.cFileName = true
      · rw [if_pos hx] at h ⊢
        exact ih tpa h
      · rw [if_neg hx] at h ⊢
        cases hw1 : wcscat_s tpa cch dir with
        | none => rfl
        | some t1 =>
          rw [hw1] at h
          dsimp only at h ⊢
          cases hw2 : wcscat_s t1 cch e.cFileName with
          | none => rfl
          | some t2 =>
            rw [hw2] at h
            dsimp only at h ⊢
            cases hw3 : wcscat_s t2 cch ";" with
            | none => rfl
            | some t3 =>
              rw [hw3] at h
              dsimp only at h ⊢
              exact ih t3 h

lemma ScanDirectory_success (dir pat : String) (entries : List FileEntry)
    (tpa : String) (cch : Nat)
    (h : (ScanDirectory dir pat entries tpa cch).1 = true) :
    (ScanDirectory dir pat entries tpa cch).2 = tpa ++ tpaFragment dir entries := by
  unfold ScanDirectory at h ⊢
  cases hc : wcscpy_s MAX_PATH dir with
  | none => rw [hc] at h; simp at h
  | some p0 =>
    rw [hc] at h
    dsimp only at h ⊢
    cases hc2 : wcscat_s p0 MAX_PATH pat with
    | none => rw [hc2] at h; simp at h
    | some p1 =>
      rw [hc2] at h
      dsimp only at h ⊢
      cases entries with
      | nil => simp at h
      | cons e es => exact scanAppendLoop_success dir cch (e :: es) tpa h

lemma length_filter_sub {α : Type} (p q : α → Bool) (l : List α) :
    (l.filter fun a => p a && !(q a)).length
      = (l.filter p).length - (l.filter fun a => p a && q a).length := by
  induction l with
  | nil => rfl
  | cons x xs ih =>
    have hle : (xs.filter fun a => p a && q a).length ≤ (xs.filter p).length := by
      clear ih
      induction xs with
      | nil => simp
      | cons y ys ihy =>
        simp only [List.filter_cons]
        cases hp : p y
        all_goals cases hq : q y
        all_goals simp [hp, hq]
        all_goals omega
    simp only [List.filter_cons]
    cases hp : p x
    all_goals cases hq : q x
    all_goals simp [hp, hq, ih]
    all_goals omega

lemma usableEntries_length (entries : List FileEntry) :
    (usableEntries entries).length
      = (entries.filter fun e => !e.isDirectory).length
        - (entries.filter fun e => !e.isDirectory && tpaExclusionList.contains e.cFileName).length := by
  simpa [usableEntries] using
    length_filter_sub (fun e : FileEntry => !e.isDirectory)
      (fun e : FileEntry => tpaExclusionList.contains e.cFileName) entries

lemma tpaFragment_eq_names (dir : String) (entries : List FileEntry) :
    tpaFragment dir entries
      = concatList ((scannedNames entries).map fun m => dir ++ m ++ ";") := by
  unfold tpaFragment scannedNames
  rw [List.map_map]
  rfl

/-! ## Claims about the AssemblyListBuilder -/

/-- C1: for a directory whose entries matching the pattern are `N`
non-directory files of which `E` have filenames in the exclusion set, a
successful `ScanDirectory` appends to the output buffer exactly the usable
entries — one `directory + filename + ";"` each, in filesystem enumeration
order with no sorting — and there are exactly `N - E` of them. -/
theorem scanDirectory_appends_exactly_usable_entries (dir pat : String)
    (entries : List FileEntry) (tpa : String) (cch : Nat)
    (h : (ScanDirectory dir pat entries tpa cch).1 = true) :
    (ScanDirectory dir pat entries tpa cch).2 = tpa ++ tpaFragment dir entries
    ∧ (usableEntries entries).length
        = (entries.filter fun e => !e.isDirectory).length
          - (entries.filter fun e => !e.isDirectory && tpaExclusionList.contains e.cFileName).length :=
  ⟨ScanDirectory_success dir pat entries tpa cch h, usableEntries_length entries⟩

/-- C1 witness: a concrete successful scan over four matching entries (one
subdirectory, one excluded file) appends exactly the two usable entries. -/
theorem scanDirectory_appends_exactly_usable_entries_witness :
    (ScanDirectory "C:\\r\\" "*.dll"
        [⟨"a.dll", false⟩, ⟨"sub", true⟩, ⟨"klr.host.dll", false⟩, ⟨"b.dll", false⟩]
        "" cchTrustedPlatformAssemblies).2
      = "" ++ tpaFragment "C:\\r\\"
          [⟨"a.dll", false⟩, ⟨"sub", true⟩, ⟨"klr.host.dll", false⟩, ⟨"b.dll", false⟩]
    ∧ (usableEntries
          [⟨"a.dll", false⟩, ⟨"sub", true⟩, ⟨"klr.host.dll", false⟩, ⟨"b.dll", false⟩]).length
        = ([⟨"a.dll", false⟩, ⟨"sub", true⟩, ⟨"klr.host.dll", false⟩,
            (⟨"b.dll", false⟩ : FileEntry)].filter fun e => !e.isDirectory).length
          - ([⟨"a.dll", false⟩, ⟨"sub", true⟩, ⟨"klr.host.dll", false⟩,
              (⟨"b.dll", false⟩ : FileEntry)].filter
                fun e => !e.isDirectory && tpaExclusionList.contains e.cFileName).length :=
  scanDirectory_appends_exactly_usable_entries "C:\\r\\" "*.dll"
    [⟨"a.dll", false⟩, ⟨"sub", true⟩, ⟨"klr.host.dll", false⟩, ⟨"b.dll", false⟩]
    "" cchTrustedPlatformAssemblies (by decide)

/-- C2: whatever the directory content, the filenames `ScanDirectory` emits
are never members of the exclusion set (exact-match comparison), and the
output of a successful scan is exactly the input buffer followed by
`directory + name + ";"` for those emitted names. -/
theorem scanDirectory_never_emits_excluded (dir pat : String)
    (entries : List FileEntry) (tpa : String) (cch : Nat)
    (n : String) (hn : n ∈ scannedNames entries) :
    tpaExclusionList.contains n = false
    ∧ ((ScanDirectory dir pat entries tpa cch).1 = true →
        (ScanDirectory dir pat entries tpa cch).2
          = tpa ++ concatList ((scannedNames entries).map fun m => dir ++ m ++ ";")) := by
  constructor
  · unfold scannedNames usableEntries at hn
    obtain ⟨e, he, rfl⟩ := List.mem_map.1 hn
    have hp := List.of_mem_filter he
    rw [Bool.and_eq_true] at hp
    simpa using hp.2
  · intro hs
    rw [ScanDirectory_success dir pat entries tpa cch hs, tpaFragment_eq_names]

/-- C2 witness: on a concrete directory holding one excluded and one
ordinary file, the emitted name "b.dll" is not in the exclusion set and the
successful output is the expected single entry. -/
theorem scanDirectory_never_emits_excluded_witness :
    tpaExclusionList.contains "b.dll" = false
    ∧ ((ScanDirectory "C:\\q\\" "*.dll"
          [⟨"klr.host.ni.dll", false⟩, ⟨"b.dll", false⟩] "" 64512).1 = true →
        (ScanDirectory "C:\\q\\" "*.dll"
          [⟨"klr.host.ni.dll", false⟩, ⟨"b.dll", false⟩] "" 64512).2
          = "" ++ concatList
              ((scannedNames [⟨"klr.host.ni.dll", false⟩, ⟨"b.dll", false⟩]).map
                fun m => "C:\\q\\" ++ m ++ ";")) :=
  scanDirectory_never_emits_excluded "C:\\q\\" "*.dll"
    [⟨"klr.host.ni.dll", false⟩, ⟨"b.dll", false⟩] "" 64512 "b.dll" (by decide)

/-- C7 counterexample: the overflow failure is not signalled distinctly from
the soft no-matches condition.  A scan whose enumeration cannot start and a
scan that overflows the destination return the identical result
`(false, "")`, so the caller cannot tell them apart — and indeed falls back
to the next pattern in both cases. -/
theorem overflow_signal_equals_nomatch_cex :
    ScanDirectory "C:\\c\\" "*.ni.dll" [] "" 4
      = ScanDirectory "C:\\c\\" "*.ni.dll" [⟨"a.ni.dll", false⟩] "" 4
    ∧ (ScanDirectory "C:\\c\\" "*.ni.dll" [⟨"a.ni.dll", false⟩] "" 4).1 = false := by
  constructor
  · decide
  · decide

/-- C7 (amended): if appending would exceed the buffer capacity the build
fails without a truncated or partially-written result (the failing
`wcscat_s` wipes the destination, so the output is either the untouched
input buffer or empty), and the no-matches condition also yields `false` —
the two error conditions share the same signal, so the caller falls back to
the next pattern on overflow as well. -/
theorem scan_failure_no_partial_output (dir pat : String)
    (entries : List FileEntry) (tpa : String) (cch : Nat) :
    ((ScanDirectory dir pat entries tpa cch).1 = false →
        (ScanDirectory dir pat entries tpa cch).2 = tpa
        ∨ (ScanDirectory dir pat entries tpa cch).2 = "")
    ∧ (ScanDirectory dir pat [] tpa cch).1 = false := by
  constructor
  · intro h
    unfold ScanDirectory at h ⊢
    cases hc : wcscpy_s MAX_PATH dir with
    | none => left; rfl
    | some p0 =>
      rw [hc] at h
      dsimp only at h ⊢
      cases hc2 : wcscat_s p0 MAX_PATH pat with
      | none => left; rfl
      | some p1 =>
        rw [hc2] at h
        dsimp only at h ⊢
        cases entries with
        | nil => left; rfl
        | cons e es => right; exact scanAppendLoop_failed dir cch (e :: es) tpa h
  · show (ScanDirectory dir pat [] tpa cch).1 = false
    unfold ScanDirectory
    split
    · rfl
    · split
      · rfl
      · rfl

/-- C7 witness: a concrete overflowing scan leaves either the original
buffer or an empty buffer (here: empty), and a concrete empty enumeration
reports failure. -/
theorem scan_failure_no_partial_output_witness :
    ((ScanDirectory "C:\\c\\" "*.ni.dll" [⟨"a.ni.dll", false⟩] "zz" 4).2 = "zz"
      ∨ (ScanDirectory "C:\\c\\" "*.ni.dll" [⟨"a.ni.dll", false⟩] "zz" 4).2 = "")
    ∧ (ScanDirectory "C:\\c\\" "*.ni.dll" [] "zz" 4).1 = false :=
  ⟨(scan_failure_no_partial_output "C:\\c\\" "*.ni.dll"
      [⟨"a.ni.dll", false⟩] "zz" 4).1 (by decide),
   (scan_failure_no_partial_output "C:\\c\\" "*.ni.dll" [] "zz" 4).2⟩

/-! ## Claims about the RuntimeLocator -/

lemma osLoaderLoopStep_spin (w : LoaderWorld)
    (hbad : firstOsLoaderModuleGood w = false) :
    osLoaderLoopStep w 0 = Sum.inl 0 := by
  unfold firstOsLoaderModuleGood at hbad
  unfold osLoaderLoopStep
  rw [show osLoaderModuleNames.get? 0
      = some "api-ms-win-core-libraryloader-l1-1-1.dll" from rfl]
  dsimp only
  cases h1 : w.osModuleLoads "api-ms-win-core-libraryloader-l1-1-1.dll" with
  | false => simp [h1]
  | true =>
    cases h2 : w.osModuleHasAddDllDirectory "api-ms-win-core-libraryloader-l1-1-1.dll" with
    | false => simp [h1, h2]
    | true =>
      cases h3 : w.osModuleHasSetDefaultDllDirectories
          "api-ms-win-core-libraryloader-l1-1-1.dll" with
      | false => simp [h1, h2, h3]
      | true => rw [h1, h2, h3] at hbad; simp at hbad

lemma osLoaderLoopStep_found (w : LoaderWorld)
    (hg : firstOsLoaderModuleGood w = true) :
    osLoaderLoopStep w 0 = Sum.inr ScanLoopResult.found := by
  unfold firstOsLoaderModuleGood at hg
  rw [Bool.and_eq_true, Bool.and_eq_true] at hg
  unfold osLoaderLoopStep
  rw [show osLoaderModuleNames.get? 0
      = some "api-ms-win-core-libraryloader-l1-1-1.dll" from rfl]
  dsimp only
  simp [hg.1.1, hg.1.2, hg.2]

lemma osLoaderLoopRun_spin (w : LoaderWorld)
    (hbad : firstOsLoaderModuleGood w = false) :
    ∀ fuel, osLoaderLoopRun w 0 fuel = none := by
  intro fuel
  induction fuel with
  | zero => rfl
  | succ n ih =>
    show (match osLoaderLoopStep w 0 with
          | Sum.inl idx2 => osLoaderLoopRun w idx2 n
          | Sum.inr r => some r) = none
    rw [osLoaderLoopStep_spin w hbad]
    exact ih

lemma loadFallbacks_eq_chain (w : LoaderWorld) :
    loadFallbacks w [] none
      = firstSuccessfulLoad w.loadLibrary [devClrPath w.amd64, "coreclr.dll"] := by
  by_cases h1 : w.loadLibrary (devClrPath w.amd64) = true
  · simp [loadFallbacks, firstSuccessfulLoad, h1]
  · by_cases h2 : w.loadLibrary "coreclr.dll" = true
    · simp [loadFallbacks, firstSuccessfulLoad, h1, h2]
    · simp [loadFallbacks, firstSuccessfulLoad, h1, h2]

lemma loadFallbacks_attempt_eq_chain (w : LoaderWorld) (p : String) :
    loadFallbacks w [p] (if w.loadLibrary p = true then some p else none)
      = firstSuccessfulLoad w.loadLibrary (p :: [devClrPath w.amd64, "coreclr.dll"]) := by
  by_cases hp : w.loadLibrary p = true
  · simp [loadFallbacks, firstSuccessfulLoad, hp]
  · rw [if_neg hp]
    by_cases h1 : w.loadLibrary (devClrPath w.amd64) = true
    · simp [loadFallbacks, firstSuccessfulLoad, hp, h1]
    · by_cases h2 : w.loadLibrary "coreclr.dll" = true
      · simp [loadFallbacks, firstSuccessfulLoad, hp, h1, h2]
      · simp [loadFallbacks, firstSuccessfulLoad, hp, h1, h2]

/-- C3 counterexample: with `CORECLR_DIR` pointing at a nonexistent file on
the `Win7PlusCoreSystem` build whose loader modules lack the two
search-path-extension exports, the next fallback is not attempted: the
candidate-module scan loop is stuck on index 0 (its step maps state 0 to
state 0), `LoadCoreClr` produces no result within 30 iterations and never
attempts the development path even though that path would load. -/
theorem loadCoreClr_fallback_skipped_cex :
    LoadCoreClr envMissingFileWorld 30 = none
    ∧ envMissingFileWorld.loadLibrary "C:\\nowhere\\coreclr.dll" = false
    ∧ envMissingFileWorld.loadLibrary (devClrPath envMissingFileWorld.amd64) = true
    ∧ osLoaderLoopStep envMissingFileWorld 0 = Sum.inl 0 :=
  ⟨by decide, by decide, by decide, by decide⟩

/-- C3 (amended): `LoadCoreClr` attempts, in order, the environment-variable
path (normalized, with `coreclr.dll` appended), the fixed per-architecture
development path, and the bare filename; each later step only if the
previous produced no handle, the first success winning, all failing giving a
null handle — provided the environment path fits `MAX_PATH` and, on the
`Win7PlusCoreSystem` build with the variable set, the first candidate OS
loader module provides both search-path-extension exports (otherwise the
candidate scan loop never terminates and no load is attempted). -/
theorem loadCoreClr_chain_amended (w : LoaderWorld) (fuel : Nat)
    (hgood : w.win7PlusCoreSystem = false ∨ w.coreclrDirEnv = none
      ∨ firstOsLoaderModuleGood w = true)
    (hbuild : envBuildOk w = true) :
    LoadCoreClr w (fuel + 1) = some (locateChainSpec w) := by
  unfold LoadCoreClr locateChainSpec envCandidate
  cases henv : w.coreclrDirEnv with
  | none =>
    dsimp only
    rw [loadFallbacks_eq_chain]
    rfl
  | some d =>
    unfold envBuildOk at hbuild
    rw [henv] at hbuild
    dsimp only at hbuild
    obtain ⟨p, hp⟩ := Option.isSome_iff_exists.1 hbuild
    dsimp only
    rw [hp]
    dsimp only
    rcases hgood with hg | hg | hg
    · rw [if_neg (by rw [hg]; simp)]
      rw [loadFallbacks_attempt_eq_chain]
      rfl
    · rw [henv] at hg; exact absurd hg (by simp)
    · by_cases hwin : w.win7PlusCoreSystem = true
      · rw [if_pos hwin]
        have hrun : osLoaderLoopRun w 0 (fuel + 1) = some ScanLoopResult.found := by
          show (match osLoaderLoopStep w 0 with
                | Sum.inl idx2 => osLoaderLoopRun w idx2 fuel
                | Sum.inr r => some r) = some ScanLoopResult.found
          rw [osLoaderLoopStep_found w hg]
        rw [hrun]
        dsimp only
        rw [loadFallbacks_attempt_eq_chain]
        rfl
      · rw [if_neg hwin]
        rw [loadFallbacks_attempt_eq_chain]
        rfl

/-- C3 witness: a configuration where only the bare filename loads — the
locate chain attempts all three candidates and returns the bare-filename
handle. -/
theorem loadCoreClr_chain_amended_witness :
    LoadCoreClr chainWitnessWorld 1 = some (locateChainSpec chainWitnessWorld) :=
  loadCoreClr_chain_amended chainWitnessWorld 0 (Or.inl rfl) (by decide)

/-- C8 counterexample: on the `Win7PlusCoreSystem` build, when the two
search-path-extension APIs cannot be obtained from any candidate OS loader
module, `LoadCoreClr` does not proceed to attempt loading the runtime
library: the candidate scan loop is stuck on index 0, and after 30
iterations no result and no load attempt has been produced, although every
CLR path would load. -/
theorem loadCoreClr_api_missing_no_load_cex :
    LoadCoreClr apiMissingLoadableWorld 30 = none
    ∧ osLoaderLoopStep apiMissingLoadableWorld 0 = Sum.inl 0
    ∧ apiMissingLoadableWorld.loadLibrary "C:\\clr\\coreclr.dll" = true :=
  ⟨by decide, by decide, by decide⟩

/-- C8 (amended): on the `Win7PlusCoreSystem` build, if the first candidate
OS loader module does not yield both search-path-extension APIs, the
candidate scan loop never advances (the index increment at lines 195-196 is
unreachable), so `LoadCoreClr` terminates for no iteration bound and never
attempts to load the runtime library — the locate operation neither
proceeds nor aborts. -/
theorem loadCoreClr_api_missing_diverges (w : LoaderWorld) (dd p : String) (fuel : Nat)
    (h1 : w.win7PlusCoreSystem = true)
    (h2 : w.coreclrDirEnv = some dd)
    (h3 : buildEnvClrPath dd = some p)
    (hbad : firstOsLoaderModuleGood w = false) :
    LoadCoreClr w fuel = none := by
  unfold LoadCoreClr
  rw [h2]
  dsimp only
  rw [h3]
  dsimp only
  rw [if_pos h1]
  rw [osLoaderLoopRun_spin w hbad fuel]

/-- C8 witness: the divergence theorem applied at a concrete world and a
concrete iteration bound. -/
theorem loadCoreClr_api_missing_diverges_witness :
    LoadCoreClr apiMissingWorld 9 = none :=
  loadCoreClr_api_missing_diverges apiMissingWorld "C:\\clr" "C:\\clr\\coreclr.dll" 9
    rfl rfl (by decide) (by decide)

/-! ## Claims about the HostLifecycleController -/

lemma afterScan_mem_mono (w : HostWorld) (s : String) (ev : List HostEvent)
    (tpa : String) (e : HostEvent) (he : e ∈ ev) :
    e ∈ (afterScan w s ev tpa).events := by
  simp only [afterScan]
  repeat' split
  all_goals simp [List.mem_append, he]

lemma afterScan_scan_not_mem (w : HostWorld) (s : String) (ev : List HostEvent)
    (tpa : String) (pat : String) (hnot : HostEvent.scan pat ∉ ev) :
    HostEvent.scan pat ∉ (afterScan w s ev tpa).events := by
  simp only [afterScan]
  repeat' split
  all_goals simp [List.mem_append, hnot]

lemma afterScan_delegate_inv (w : HostWorld) (s : String) (ev : List HostEvent)
    (tpa : String) (hnotin : HostEvent.createDelegate ∉ ev) :
    HostEvent.createDelegate ∈ (afterScan w s ev tpa).events →
    FAILED w.createAppDomainHr = false
    ∧ HostEvent.createAppDomain ∈ (afterScan w s ev tpa).events := by
  simp only [afterScan]
  repeat' split
  all_goals intro h
  all_goals first
  | (refine ⟨?_, ?_⟩
     · simp_all
     · simp [List.mem_append])
  | (exfalso
     revert h
     simp [List.mem_append, hnotin])

lemma afterScan_freed_eq_ret (w : HostWorld) (s : String) (ev : List HostEvent)
    (tpa : String) (hstart : FAILED w.startHr = false) :
    (afterScan w s ev tpa).tpaAllocated = true
    ∧ (afterScan w s ev tpa).tpaFreed = (afterScan w s ev tpa).ret := by
  simp only [afterScan]
  repeat' split
  all_goals simp_all

lemma afterAlloc_mem_prefix (w : HostWorld) (s : String) (e : HostEvent)
    (he : e ∈ hostPrefixEvents) : e ∈ (afterAlloc w s).events := by
  simp only [afterAlloc]
  split
  · exact afterScan_mem_mono w s _ _ e (by simp [List.mem_append, he])
  · split
    · exact afterScan_mem_mono w s _ _ e (by simp [List.mem_append, he])
    · simp [List.mem_append, he]

lemma afterAlloc_delegate_inv (w : HostWorld) (s : String) :
    HostEvent.createDelegate ∈ (afterAlloc w s).events →
    FAILED w.createAppDomainHr = false
    ∧ HostEvent.createAppDomain ∈ (afterAlloc w s).events := by
  simp only [afterAlloc]
  split
  · exact afterScan_delegate_inv w s _ _ (by decide)
  · split
    · exact afterScan_delegate_inv w s _ _ (by decide)
    · intro h
      revert h
      simp [hostPrefixEvents]

lemma afterAlloc_freed_eq_ret (w : HostWorld) (s : String)
    (hstart : FAILED w.startHr = false) :
    (afterAlloc w s).tpaAllocated = true
    ∧ (afterAlloc w s).tpaFreed = (afterAlloc w s).ret := by
  simp only [afterAlloc]
  split
  · exact afterScan_freed_eq_ret w s _ _ hstart
  · split
    · exact afterScan_freed_eq_ret w s _ _ hstart
    · exact ⟨rfl, rfl⟩

lemma callMain_reaches_afterAlloc (w : HostWorld) (d : CallData)
    (h0 : klrDirFits d = true)
    (h1 : w.loadCoreClrOk = true) (h2 : w.pinOk = true)
    (h3 : w.getClrRuntimeHostExportOk = true)
    (h4 : FAILED w.getHostHr = false) (h5 : FAILED w.authenticateHr = false)
    (h6 : FAILED w.startHr = false) (h7 : w.tpaAllocOk = true) :
    CallApplicationMain w d
      = afterAlloc w (match d.klrDirectory with
                      | some k => k
                      | none => w.moduleDirOfNull) := by
  unfold CallApplicationMain
  cases hk : d.klrDirectory with
  | some k =>
    unfold klrDirFits at h0
    rw [hk] at h0
    dsimp only
    rw [show wcscpy_s MAX_PATH k = some k from by
      unfold wcscpy_s
      rw [if_pos (of_decide_eq_true h0)]]
    simp [h1, h2, h3, h4, h5, h6, h7]
  | none =>
    dsimp only
    simp [h1, h2, h3, h4, h5, h6, h7]

lemma callMain_alloc_fail (w : HostWorld) (d : CallData)
    (h0 : klrDirFits d = true)
    (h1 : w.loadCoreClrOk = true) (h2 : w.pinOk = true)
    (h3 : w.getClrRuntimeHostExportOk = true)
    (h4 : FAILED w.getHostHr = false) (h5 : FAILED w.authenticateHr = false)
    (h6 : FAILED w.startHr = false) (h7 : w.tpaAllocOk = false) :
    CallApplicationMain w d
      = ⟨true, hostPrefixEvents, none, false, false, ""⟩ := by
  unfold CallApplicationMain
  cases hk : d.klrDirectory with
  | some k =>
    unfold klrDirFits at h0
    rw [hk] at h0
    dsimp only
    rw [show wcscpy_s MAX_PATH k = some k from by
      unfold wcscpy_s
      rw [if_pos (of_decide_eq_true h0)]]
    simp [h1, h2, h3, h4, h5, h6, h7]
  | none =>
    dsimp only
    simp [h1, h2, h3, h4, h5, h6, h7]

/-- C4: the host lifecycle is strictly sequential.  If `Authenticate` is
invoked and fails, `CallApplicationMain` returns `false` with `Start`,
scanning, property building and context creation never invoked; context
creation happens only after `Start` succeeded; delegate resolution happens
only after context creation succeeded. -/
theorem callApplicationMain_sequential_lifecycle (w : HostWorld) (d : CallData) :
    ((HostEvent.authenticate ∈ (CallApplicationMain w d).events
        ∧ FAILED w.authenticateHr = true) →
      (CallApplicationMain w d).ret = false
      ∧ HostEvent.start ∉ (CallApplicationMain w d).events
      ∧ HostEvent.buildProperties ∉ (CallApplicationMain w d).events
      ∧ HostEvent.scan "*.ni.dll" ∉ (CallApplicationMain w d).events
      ∧ HostEvent.scan "*.dll" ∉ (CallApplicationMain w d).events
      ∧ HostEvent.createAppDomain ∉ (CallApplicationMain w d).events)
    ∧ (HostEvent.createAppDomain ∈ (CallApplicationMain w d).events →
        FAILED w.startHr = false ∧ HostEvent.start ∈ (CallApplicationMain w d).events)
    ∧ (HostEvent.createDelegate ∈ (CallApplicationMain w d).events →
        FAILED w.createAppDomainHr = false
        ∧ HostEvent.createAppDomain ∈ (CallApplicationMain w d).events) := by
  unfold CallApplicationMain
  split
  · exact ⟨fun hh => absurd hh.1 (by decide), fun hh => absurd hh (by decide),
      fun hh => absurd hh (by decide)⟩
  · split
    · exact ⟨fun hh => absurd hh.1 (by decide), fun hh => absurd hh (by decide),
        fun hh => absurd hh (by decide)⟩
    · split
      · exact ⟨fun hh => absurd hh.1 (by decide), fun hh => absurd hh (by decide),
          fun hh => absurd hh (by decide)⟩
      · split
        · exact ⟨fun hh => absurd hh.1 (by decide), fun hh => absurd hh (by decide),
            fun hh => absurd hh (by decide)⟩
        · split
          · exact ⟨fun hh => absurd hh.1 (by decide), fun hh => absurd hh (by decide),
              fun hh => absurd hh (by decide)⟩
          · split
            · refine ⟨fun hh => ?_, fun hh => absurd hh (by decide),
                fun hh => absurd hh (by decide)⟩
              exact ⟨rfl, by decide, by decide, by decide, by decide, by decide⟩
            · split
              · refine ⟨fun hh => ?_, fun hh => ?_, fun hh => ?_⟩ <;>
                  simp_all [hostPrefixEvents]
              · split
                · refine ⟨fun hh => ?_, fun hh => ?_, fun hh => ?_⟩ <;>
                    simp_all [hostPrefixEvents]
                · refine ⟨fun hh => ?_, fun hh => ?_, fun hh => ?_⟩
                  · exact absurd hh.2 (by assumption)
                  · exact ⟨by simp_all, afterAlloc_mem_prefix w _ HostEvent.start (by decide)⟩
                  · exact afterAlloc_delegate_inv w _ hh

/-- C4 witness: in a world where only `Authenticate` fails, the sequence
stops with `false` — `Start`, scanning, property building and context
creation are absent from the trace. -/
theorem callApplicationMain_sequential_lifecycle_witness :
    (CallApplicationMain authFailWorld ⟨none, "C:\\app\\"⟩).ret = false
    ∧ HostEvent.start ∉ (CallApplicationMain authFailWorld ⟨none, "C:\\app\\"⟩).events
    ∧ HostEvent.buildProperties ∉ (CallApplicationMain authFailWorld ⟨none, "C:\\app\\"⟩).events
    ∧ HostEvent.scan "*.ni.dll" ∉ (CallApplicationMain authFailWorld ⟨none, "C:\\app\\"⟩).events
    ∧ HostEvent.scan "*.dll" ∉ (CallApplicationMain authFailWorld ⟨none, "C:\\app\\"⟩).events
    ∧ HostEvent.createAppDomain ∉ (CallApplicationMain authFailWorld ⟨none, "C:\\app\\"⟩).events :=
  (callApplicationMain_sequential_lifecycle authFailWorld ⟨none, "C:\\app\\"⟩).1
    ⟨by decide, by decide⟩

/-- C5 counterexample: when `CreateAppDomainWithManager` fails, the function
takes the direct `return false` at lines 416-422, skipping the `Finished`
label: the trusted-assembly buffer was allocated but is not freed on that
exit path. -/
theorem tpa_buffer_leak_cex :
    (CallApplicationMain appDomainFailWorld ⟨none, "C:\\app\\"⟩).tpaAllocated = true
    ∧ (CallApplicationMain appDomainFailWorld ⟨none, "C:\\app\\"⟩).tpaFreed = false
    ∧ (CallApplicationMain appDomainFailWorld ⟨none, "C:\\app\\"⟩).ret = false :=
  ⟨by decide, by decide, by decide⟩

/-- C5 (amended): whenever the trusted-assembly buffer has been allocated,
it is freed exactly on the exit paths that pass the `Finished` label — the
success path and the `wcscat_s`-failure paths, all of which return `true` —
and leaked on the direct `return false` paths after allocation (scan
failure, context-creation failure, delegate-resolution failure): the buffer
is freed if and only if the function returns `true`. -/
theorem tpa_freed_iff_returns_true (w : HostWorld) (d : CallData) :
    (CallApplicationMain w d).tpaAllocated = true →
    (CallApplicationMain w d).tpaFreed = (CallApplicationMain w d).ret := by
  unfold CallApplicationMain
  split
  · intro h; simp at h
  · split
    · intro h; simp at h
    · split
      · intro h; simp at h
      · split
        · intro h; simp at h
        · split
          · intro h; simp at h
          · split
            · intro h; simp at h
            · split
              · intro h; simp at h
              · split
                · intro h; simp at h
                · intro _
                  have hstart : FAILED w.startHr = false := by simp_all
                  exact (afterAlloc_freed_eq_ret w _ hstart).2

/-- C5 witness: on the fully successful run the buffer is both allocated
and freed, matching the `true` return. -/
theorem tpa_freed_iff_returns_true_witness :
    (CallApplicationMain successWorld ⟨none, "C:\\app\\"⟩).tpaFreed
      = (CallApplicationMain successWorld ⟨none, "C:\\app\\"⟩).ret :=
  tpa_freed_iff_returns_true successWorld ⟨none, "C:\\app\\"⟩ (by decide)

/-- C6 counterexample: a runtime directory whose only `*.ni.dll` match is an
excluded filename yields zero usable entries, yet the optimized scan
returns `true`, so the generic `*.dll` fallback is skipped. -/
theorem generic_scan_skipped_zero_usable_cex :
    usableEntries exclOnlyNiWorld.niEntries = []
    ∧ HostEvent.scan "*.dll" ∉
        (CallApplicationMain exclOnlyNiWorld ⟨none, "C:\\app\\"⟩).events :=
  ⟨by decide, by decide⟩

/-- C6 (amended): on a run that reaches the scans, the generic-pattern scan
is attempted if and only if the optimized-pattern `ScanDirectory` call
returned `false` (no entry matched the pattern, or an append overflowed) —
not whenever it appended zero usable entries: a `true` return with zero
usable entries still skips the fallback. -/
theorem generic_scan_iff_optimized_scan_failed (w : HostWorld) (d : CallData)
    (h0 : klrDirFits d = true)
    (h1 : w.loadCoreClrOk = true) (h2 : w.pinOk = true)
    (h3 : w.getClrRuntimeHostExportOk = true)
    (h4 : FAILED w.getHostHr = false) (h5 : FAILED w.authenticateHr = false)
    (h6 : FAILED w.startHr = false) (h7 : w.tpaAllocOk = true) :
    HostEvent.scan "*.dll" ∈ (CallApplicationMain w d).events
      ↔ (ScanDirectory w.coreClrDirectory "*.ni.dll" w.niEntries ""
          cchTrustedPlatformAssemblies).1 = false := by
  rw [callMain_reaches_afterAlloc w d h0 h1 h2 h3 h4 h5 h6 h7]
  simp only [afterAlloc]
  split
  · constructor
    · intro hmem
      exact absurd hmem (afterScan_scan_not_mem w _ _ _ "*.dll" (by decide))
    · intro hf
      simp_all
  · split
    · constructor
      · intro _
        simp_all
      · intro _
        exact afterScan_mem_mono w _ _ _ (HostEvent.scan "*.dll") (by decide)
    · constructor
      · intro _
        simp_all
      · intro _
        simp [hostPrefixEvents]

/-- C6 witness: with no optimized-pattern matches at all, the optimized scan
fails and the generic scan is attempted. -/
theorem generic_scan_iff_optimized_scan_failed_witness :
    HostEvent.scan "*.dll" ∈
        (CallApplicationMain fallbackScanWorld ⟨none, "C:\\app\\"⟩).events
      ↔ (ScanDirectory fallbackScanWorld.coreClrDirectory "*.ni.dll"
          fallbackScanWorld.niEntries "" cchTrustedPlatformAssemblies).1 = false :=
  generic_scan_iff_optimized_scan_failed fallbackScanWorld ⟨none, "C:\\app\\"⟩
    (by decide) (by decide) (by decide) (by decide) (by decide) (by decide)
    (by decide) (by decide)

/-- C9 counterexample: on the allocation-failure path the host has already
been engaged: `Authenticate` and `Start` are in the call trace before the
abort, and the function even returns `true` — so the claim that no
host-interface call is made on that path is false. -/
theorem alloc_failure_after_host_calls_cex :
    HostEvent.authenticate ∈ (CallApplicationMain allocFailWorld ⟨none, "C:\\app\\"⟩).events
    ∧ HostEvent.start ∈ (CallApplicationMain allocFailWorld ⟨none, "C:\\app\\"⟩).events
    ∧ (CallApplicationMain allocFailWorld ⟨none, "C:\\app\\"⟩).ret = true :=
  ⟨by decide, by decide, by decide⟩

/-- C9 (amended): if allocation of the trusted-assembly buffer fails,
`CallApplicationMain` aborts before any further host interaction — no
scanning, property building, context creation, delegate resolution,
execution, unload or stop — but the factory call, `SetStartupFlags`,
`Authenticate` and `Start` have already been made, and the function
returns `true`. -/
theorem alloc_failure_aborts_after_start (w : HostWorld) (d : CallData)
    (h0 : klrDirFits d = true)
    (h1 : w.loadCoreClrOk = true) (h2 : w.pinOk = true)
    (h3 : w.getClrRuntimeHostExportOk = true)
    (h4 : FAILED w.getHostHr = false) (h5 : FAILED w.authenticateHr = false)
    (h6 : FAILED w.startHr = false) (h7 : w.tpaAllocOk = false) :
    CallApplicationMain w d = ⟨true, hostPrefixEvents, none, false, false, ""⟩ :=
  callMain_alloc_fail w d h0 h1 h2 h3 h4 h5 h6 h7

/-- C9 witness: the amended behaviour at the concrete allocation-failure
world. -/
theorem alloc_failure_aborts_after_start_witness :
    CallApplicationMain allocFailWorld ⟨none, "C:\\app\\"⟩
      = ⟨true, hostPrefixEvents, none, false, false, ""⟩ :=
  alloc_failure_aborts_after_start allocFailWorld ⟨none, "C:\\app\\"⟩
    (by decide) (by decide) (by decide) (by decide) (by decide) (by decide)
    (by decide) (by decide)

/-- C10: when `calloc` for the trusted-assembly buffer fails,
`CallApplicationMain` jumps to `Finished` with `hr` still holding the
`Start()` success, and therefore returns `true` although it never built
properties, created an execution context, resolved or invoked the entry
delegate — and `data->exitcode` is never written. -/
theorem alloc_failure_returns_true_without_exitcode (w : HostWorld) (d : CallData)
    (h0 : klrDirFits d = true)
    (h1 : w.loadCoreClrOk = true) (h2 : w.pinOk = true)
    (h3 : w.getClrRuntimeHostExportOk = true)
    (h4 : FAILED w.getHostHr = false) (h5 : FAILED w.authenticateHr = false)
    (h6 : FAILED w.startHr = false) (h7 : w.tpaAllocOk = false) :
    (CallApplicationMain w d).ret = true
    ∧ (CallApplicationMain w d).exitcode = none
    ∧ HostEvent.buildProperties ∉ (CallApplicationMain w d).events
    ∧ HostEvent.createAppDomain ∉ (CallApplicationMain w d).events
    ∧ HostEvent.createDelegate ∉ (CallApplicationMain w d).events
    ∧ HostEvent.invokeMain ∉ (CallApplicationMain w d).events
    ∧ HostEvent.start ∈ (CallApplicationMain w d).events := by
  rw [callMain_alloc_fail w d h0 h1 h2 h3 h4 h5 h6 h7]
  refine ⟨rfl, rfl, ?_, ?_, ?_, ?_, ?_⟩ <;> decide

/-- C10 witness: the allocation-failure behaviour at the concrete world. -/
theorem alloc_failure_returns_true_without_exitcode_witness :
    (CallApplicationMain allocFailWorld ⟨none, "C:\\app\\"⟩).ret = true
    ∧ (CallApplicationMain allocFailWorld ⟨none, "C:\\app\\"⟩).exitcode = none
    ∧ HostEvent.buildProperties ∉ (CallApplicationMain allocFailWorld ⟨none, "C:\\app\\"⟩).events
    ∧ HostEvent.createAppDomain ∉ (CallApplicationMain allocFailWorld ⟨none, "C:\\app\\"⟩).events
    ∧ HostEvent.createDelegate ∉ (CallApplicationMain allocFailWorld ⟨none, "C:\\app\\"⟩).events
    ∧ HostEvent.invokeMain ∉ (CallApplicationMain allocFailWorld ⟨none, "C:\\app\\"⟩).events
    ∧ HostEvent.start ∈ (CallApplicationMain allocFailWorld ⟨none, "C:\\app\\"⟩).events :=
  alloc_failure_returns_true_without_exitcode allocFailWorld ⟨none, "C:\\app\\"⟩
    (by decide) (by decide) (by decide) (by decide) (by decide) (by decide)
    (by decide) (by decide)
